import Mathlib

/-
Verification of scripts/launch_agent_python.py.

The script defines a class MyAgent extending an external framework's
AbstractAgent.  Its constructor builds a DefaultHook from an empty list, an
Identity from a fresh ulid string and the given name, and a
DefaultResponseHandler from that Identity and Hook.  It exposes two methods,
assist(query) and launch(), each of which only prints one line.  main()
constructs an agent named "MyAgent" and calls launch().

The external collaborators (AbstractAgent, DefaultHook, DefaultResponseHandler,
Identity, the ulid library) are not part of this repository; they are embedded
below from the contracts the specification states for them: plain record
constructors that perform no output, and a unique-identifier generator that
returns a fresh non-empty string on each call.  Output is modelled as the list
of lines printed; a Python method call yields the (possibly updated) receiver,
its printed lines, and its return value, wrapped in Except to record whether it
raised.
-/

namespace LaunchAgent

/-- Modelled from the spec: "an Identity type constructible from an id and a
name" (sentient_agent_framework.interface.identity.Identity); an opaque unique
identifier plus a display name. -/
structure Identity where
  id : String
  name : String

/-- Modelled from the spec: "a Hook type constructible from an ordered sequence
of registrations" (sentient_agent_framework.implementation.default_hook).  The
registration element contract is not defined in this source, so registrations
are kept as opaque strings. -/
structure DefaultHook where
  registrations : List String

/-- Modelled from the spec: "a ResponseHandler type constructible from an
Identity and a Hook"
(sentient_agent_framework.implementation.default_response_handler). -/
structure DefaultResponseHandler where
  source : Identity
  hook : DefaultHook

/-- Modelled from the spec: the string of the identifier the external ulid
library issues at generator state n.  The spec promises only "a
unique-identifier generator exposing a new-identifier operation returning a
string", unique and non-empty across calls; any injective family of non-empty
strings is a faithful model, so state n is rendered as n + 1 copies of a
fixed character. -/
def ulidStr (n : Nat) : String :=
  String.mk (List.replicate (n + 1) 'u')

/-- Modelled from the spec: ulid.new().str with explicit generator state;
returns the fresh identifier string and the advanced state. -/
def ulidNew (st : Nat) : String × Nat :=
  (ulidStr st, st + 1)

/-- MyAgent: the fields assigned in MyAgent.__init__ — the name stored by the
AbstractAgent base constructor, the hook, the identity source and the response
handler. -/
structure MyAgent where
  name : String
  hook : DefaultHook
  source : Identity
  response_handler : DefaultResponseHandler

/-- MyAgent.__init__(name): super().__init__(name) stores the name;
self.hook = DefaultHook([]); self.source = Identity(id=ulid.new().str,
name=name); self.response_handler = DefaultResponseHandler(self.source,
self.hook).  Takes and returns the ulid generator state. -/
def MyAgent.init (name : String) (st : Nat) : MyAgent × Nat :=
  let p := ulidNew st
  let hook : DefaultHook := ⟨[]⟩
  let source : Identity := ⟨p.1, name⟩
  ({ name := name, hook := hook, source := source,
     response_handler := ⟨source, hook⟩ }, p.2)

/-- A Python-level exception.  No statement in this script raises or handles
one; the type records that every method below completes with Except.ok. -/
inductive PyErr where
  | raised : String → PyErr

/-- Result of a Python method call: the receiver after the call, the lines the
call printed to standard output, and the value it returned (none is Python
None, the value of a method without a return statement). -/
structure MethodResult where
  self : MyAgent
  output : List String
  ret : Option String

/-- MyAgent.assist(query): print of "Assisting with query: " followed by the
query; no assignment to self, no return statement. -/
def MyAgent.assist (self : MyAgent) (query : String) :
    Except PyErr MethodResult :=
  .ok ⟨self, ["Assisting with query: " ++ query], none⟩

/-- MyAgent.launch(): print of the fixed string "Agent launched"; no assignment
to self, no return statement. -/
def MyAgent.launch (self : MyAgent) : Except PyErr MethodResult :=
  .ok ⟨self, ["Agent launched"], none⟩

/-- main(): agent = MyAgent("MyAgent"); agent.launch().  Returns the lines the
run printed, the process exit status (0 when no exception escapes), and the
final ulid generator state. -/
def main (st : Nat) : Except PyErr (List String × Int × Nat) :=
  let p := MyAgent.init "MyAgent" st
  match MyAgent.launch p.1 with
  | .ok r => .ok (r.output, 0, p.2)
  | .error e => .error e

theorem ulidStr_ne_empty (n : Nat) : ulidStr n ≠ "" := by
  intro h
  have h2 : (ulidStr n).data = ("" : String).data := congrArg String.data h
  simp [ulidStr] at h2

theorem ulidStr_injective : Function.Injective ulidStr := by
  intro m n h
  have h2 : (ulidStr m).data.length = (ulidStr n).data.length := by rw [h]
  simpa [ulidStr] using h2

/-- C1 counterexample: at generator state 0 the program run writes exactly one
line, "Agent launched", not two, and exits with status 0. -/
theorem main_two_lines_cex :
    main 0 = Except.ok (["Agent launched"], 0, 1) ∧
    ¬ ∃ l1 l2 : String, (["Agent launched"] : List String) = [l1, l2] := by
  refine ⟨rfl, ?_⟩
  rintro ⟨l1, l2, h⟩
  have := congrArg List.length h
  simp at this

/-- C1 (amended): running the script as a program takes no arguments, writes
exactly one fixed-format line ("Agent launched") to standard output, and exits
with status 0 on success, whatever the state of the identifier generator. -/
theorem main_output_and_exit (st : Nat) :
    main st = Except.ok (["Agent launched"], 0, st + 1) := rfl

/-- C2: every invocation of launch() on a constructed agent writes exactly one
line to standard output, equal to the fixed string "Agent launched",
deterministically: the result is the same on every invocation and independent
of the agent. -/
theorem launch_fixed_output (a : MyAgent) :
    MyAgent.launch a = Except.ok ⟨a, ["Agent launched"], none⟩ := rfl

/-- C3: for every query Q, including the empty string, assist(Q) writes exactly
one line containing the literal value of Q; in particular assist("hello")
writes the line "Assisting with query: hello". -/
theorem assist_echoes_query (a : MyAgent) (q : String) :
    MyAgent.assist a q =
      Except.ok ⟨a, ["Assisting with query: " ++ q], none⟩ ∧
    (∃ p : String, "Assisting with query: " ++ q = p ++ q) ∧
    MyAgent.assist a "hello" =
      Except.ok ⟨a, ["Assisting with query: hello"], none⟩ := by
  exact ⟨rfl, ⟨"Assisting with query: ", rfl⟩, rfl⟩

/-- C4: constructing an agent with name N yields an Identity whose name is N
and whose id is non-empty, and a second agent constructed in sequence (from the
generator state the first construction returned) receives a distinct id. -/
theorem init_identity_properties (N M : String) (st : Nat) :
    (MyAgent.init N st).1.source.name = N ∧
    (MyAgent.init N st).1.source.id ≠ "" ∧
    (MyAgent.init M (MyAgent.init N st).2).1.source.id ≠
      (MyAgent.init N st).1.source.id := by
  refine ⟨rfl, ulidStr_ne_empty st, ?_⟩
  intro h
  exact Nat.succ_ne_self st (ulidStr_injective h)

/-- C5: no state transitions after construction: the receiver assist and launch
return is exactly the agent they were called on, every field included. -/
theorem methods_preserve_agent (a : MyAgent) (q : String) :
    (MyAgent.assist a q).map MethodResult.self = Except.ok a ∧
    (MyAgent.launch a).map MethodResult.self = Except.ok a := ⟨rfl, rfl⟩

/-- C6: for every query, assist(query) completes without raising and returns
nothing (Python None), and launch() completes without raising and returns
nothing. -/
theorem methods_no_error_no_return (a : MyAgent) (q : String) :
    (∃ r, MyAgent.assist a q = Except.ok r ∧ r.ret = none) ∧
    (∃ r, MyAgent.launch a = Except.ok r ∧ r.ret = none) :=
  ⟨⟨_, rfl, rfl⟩, ⟨_, rfl, rfl⟩⟩

/-- C7 counterexample: after constructing the agent named "MyAgent" at
generator state 0, the agent's own source field — a component of the program
state other than the response handler — holds the Identity, and it is the very
Identity the response handler holds, so the response handler is not its
exclusive owner. -/
theorem identity_retained_outside_handler_cex :
    (MyAgent.init "MyAgent" 0).1.source = Identity.mk (ulidStr 0) "MyAgent" ∧
    (MyAgent.init "MyAgent" 0).1.source =
      (MyAgent.init "MyAgent" 0).1.response_handler.source := ⟨rfl, rfl⟩

/-- C7 (amended): the Identity is shared rather than exclusively owned: after
construction the agent's source field and the response handler hold the same
Identity, the one built from the fresh id and the given name. -/
theorem identity_shared_with_handler (N : String) (st : Nat) :
    (MyAgent.init N st).1.source =
      (MyAgent.init N st).1.response_handler.source ∧
    (MyAgent.init N st).1.source = Identity.mk (ulidStr st) N := ⟨rfl, rfl⟩

/-- C8 counterexample: constructing an agent with the empty name succeeds and
yields an agent whose name field is empty, so construction does not guarantee
a non-empty name. -/
theorem empty_name_agent_cex : (MyAgent.init "" 0).1.name = "" := rfl

/-- C8 (amended): construction enforces no non-emptiness invariant: the agent's
name is exactly the name given at construction; in particular the one agent the
program constructs carries the non-empty name "MyAgent". -/
theorem agent_name_eq_argument (N : String) (st : Nat) :
    (MyAgent.init N st).1.name = N ∧
    (MyAgent.init "MyAgent" st).1.name = "MyAgent" ∧
    ("MyAgent" : String) ≠ "" := by
  refine ⟨rfl, rfl, ?_⟩
  decide

/-- C9: at agent construction the Hook collaborator is initialized with an
empty ordered sequence of registrations. -/
theorem hook_empty_registrations (N : String) (st : Nat) :
    (MyAgent.init N st).1.hook.registrations = [] := rfl

/-- C10: the output of launch() does not depend on the agent's name or
identity: two agents constructed with any names at any generator states
produce identical standard-output text from launch(). -/
theorem launch_noninterference (N M : String) (s t : Nat) :
    (MyAgent.launch (MyAgent.init N s).1).map MethodResult.output =
    (MyAgent.launch (MyAgent.init M t).1).map MethodResult.output := rfl

end LaunchAgent
